import Mathlib

/-!
Formal model of the web-scraping multi-library framework: the action policy
(safeRun and per-call option merging), the tab lifecycle of the two browser
backends (PlaywrightBrowser and PuppeteerBrowser), the element collection
operations of both selector classes, and the bounded dialog wait.

Optional TypeScript fields and possibly-undefined JavaScript values are
modelled as Option; thrown JavaScript errors are modelled with Except.
-/

namespace Scraper

/-- A thrown JavaScript error, by the site that throws it. -/
inductive JsError where
  | tabNotFound (idx : Int)
  | typeError (ctx : String)
  | elementNotFound (sel : String)
  | backendFailure (ctx : String)
deriving Repr, DecidableEq

/-- Per-call action options: timeout in ms, log flag, throw-on-fail flag.
All three fields are optional in the TypeScript interface actionOptions. -/
structure ActionOptions where
  timeout : Option Nat
  log : Option Bool
  throwOnFail : Option Bool
deriving Repr, DecidableEq

/-- An ActionOptions record with no field present. -/
def noOptions : ActionOptions := { timeout := none, log := none, throwOnFail := none }

/-- JavaScript truthiness of an optional boolean field: only the value true
is truthy; false, undefined and an absent field are falsy. -/
def truthy (b : Option Bool) : Bool :=
  match b with
  | some true => true
  | _ => false

/-- The safeRunOptions record: actionOptions extended with a message. -/
structure SafeRunOptions extends ActionOptions where
  message : String
deriving Repr, DecidableEq

/-- The console line printed for a swallowed error (console.log(e)). -/
def errorLine (e : JsError) : String :=
  match e with
  | .tabNotFound i => "Tab " ++ toString i ++ " does not exist"
  | .typeError ctx => "TypeError: " ++ ctx
  | .elementNotFound sel => "failed to find element matching selector " ++ sel
  | .backendFailure ctx => "backend failure: " ++ ctx

/-- Shallow embedding of safeRun from src/frameworks/common/utils.ts.  The
awaited callback is represented by its outcome.  If options.log is truthy the
message is printed first.  The callback result is returned unchanged on
success; on failure the error is rethrown when options.throwOnFail is truthy,
and otherwise it is printed and the declared return value is left undefined
(results as T with results unassigned), modelled as none.  The returned pair
is (JS return value or propagated error, console lines printed). -/
def safeRun (o : SafeRunOptions) (cb : Except JsError α) :
    Except JsError (Option α) × List String :=
  let pre : List String := if truthy o.log then [o.message] else []
  match cb with
  | .ok v => (.ok (some v), pre)
  | .error e =>
      if truthy o.throwOnFail then (.error e, pre)
      else (.ok none, pre ++ [errorLine e])

/-- JavaScript object spread for one field: in a spread of b over a, a field
present on b overrides the one from a. -/
def spreadField (a b : Option α) : Option α :=
  match b with
  | some v => some v
  | none => a

/-- Object spread of one ActionOptions record over another, field by field,
as in the literal with spread of a then spread of b. -/
def spreadOptions (a b : ActionOptions) : ActionOptions :=
  { timeout := spreadField a.timeout b.timeout
    log := spreadField a.log b.log
    throwOnFail := spreadField a.throwOnFail b.throwOnFail }

/-- The baseConfig interface: every field optional. -/
structure BaseConfig where
  browser : Option String
  headless : Option Bool
  actionTimeout : Option Nat
  logs : Option Bool
  throwOnFail : Option Bool
deriving Repr, DecidableEq

/-- defaultConfig from src/types/interfaces/baseConfig.ts. -/
def defaultConfig : BaseConfig :=
  { browser := some "chromium", headless := some true, actionTimeout := some 5000
    logs := some true, throwOnFail := some true }

/-- Object spread of one BaseConfig over another. -/
def spreadConfig (a b : BaseConfig) : BaseConfig :=
  { browser := spreadField a.browser b.browser
    headless := spreadField a.headless b.headless
    actionTimeout := spreadField a.actionTimeout b.actionTimeout
    logs := spreadField a.logs b.logs
    throwOnFail := spreadField a.throwOnFail b.throwOnFail }

/-- configOverrides spreads the project configuration file over
defaultConfig.  The configuration file itself is outside src, so its content
is a parameter. -/
def configOverrides (fileConfig : BaseConfig) : BaseConfig :=
  spreadConfig defaultConfig fileConfig

/-- getActionOptionsFromConfig from src/frameworks/common/utils.ts. -/
def getActionOptionsFromConfig (c : BaseConfig) : ActionOptions :=
  { timeout := c.actionTimeout, log := c.logs, throwOnFail := c.throwOnFail }

/-- The option record built at every call site: a message literal, then the
session actionOptions spread over it, then the optional call-site options
spread last (spreading undefined changes nothing). -/
def callSiteOptions (m : String) (session : ActionOptions)
    (callSite : Option ActionOptions) : SafeRunOptions :=
  { toActionOptions := spreadOptions session (callSite.getD noOptions)
    message := m }

/-! ## Browser session state

Pages are identified by the order of their creation inside the browsing
context; the heap maps each page id to its current URL.  The fields tabs,
currentTab and activePage model the mutable fields this.tabs, this.currentTab
and this.page of the two browser classes; currentTab is a JavaScript number
that the code can drive to -1, so it is an Int. -/

/-- Reading l[i] on a JavaScript array with a possibly negative or
out-of-range index yields undefined, modelled as none. -/
def listGetInt (l : List α) (i : Int) : Option α :=
  if 0 ≤ i then l.get? i.toNat else none

/-- JavaScript Array.prototype.splice(start, 1): a negative start counts
from the end clamped at 0, a start past the end removes nothing. -/
def spliceRemove (l : List α) (start : Int) : List α :=
  let actual : Nat :=
    if start < 0 then (max ((l.length : Int) + start) 0).toNat
    else min start.toNat l.length
  l.take actual ++ l.drop (actual + 1)

/-- The URL of a freshly created page. -/
def aboutBlank : String := "about:blank"

/-- The mutable state of one browser session of either backend. -/
structure BrowserState where
  /-- Heap of pages ever created in the context: page id to current URL. -/
  pages : List String
  /-- Ids of pages on which close() has been called. -/
  closedPages : List Nat
  /-- The this.tabs array, as page ids. -/
  tabs : List Nat
  /-- The this.currentTab index. -/
  currentTab : Int
  /-- The this.page field: the page id it references, or none for undefined. -/
  activePage : Option Nat
  /-- Whether context.close() has run. -/
  contextClosed : Bool
  /-- Whether browser.close() has run. -/
  browserClosed : Bool
deriving Repr, DecidableEq

/-- State after init of either backend: one page, pushed as the only tab,
currentTab 0, this.page referencing it. -/
def initialState : BrowserState :=
  { pages := [aboutBlank], closedPages := [], tabs := [0], currentTab := 0
    activePage := some 0, contextClosed := false, browserClosed := false }

/-- context.newPage(): allocates a fresh page at the next id. -/
def newPage (s : BrowserState) : BrowserState × Nat :=
  ({ s with pages := s.pages ++ [aboutBlank] }, s.pages.length)

/-- page.goto(url) on the page with the given id. -/
def setUrl (s : BrowserState) (pid : Nat) (u : String) : BrowserState :=
  { s with pages := s.pages.set pid u }

/-- The invariant claimed for tab management: whenever tabs is non-empty,
0 <= currentTab < length of tabs. -/
def tabInvariantHolds (s : BrowserState) : Bool :=
  s.tabs.isEmpty || (decide (0 ≤ s.currentTab) && decide (s.currentTab < (s.tabs.length : Int)))

/-! ### PlaywrightBrowser tab operations (inner callback semantics) -/

/-- PlaywrightBrowser.navigateTo: this.page.goto(url); a TypeError when
this.page is undefined. -/
def pwNavigateTo (u : String) (s : BrowserState) : Except JsError BrowserState :=
  match s.activePage with
  | some pid => .ok (setUrl s pid u)
  | none => .error (.typeError "goto of undefined")

/-- PlaywrightBrowser.getUrl: this.page.url(). -/
def pwGetUrl (s : BrowserState) : Except JsError String :=
  match s.activePage with
  | some pid => .ok (s.pages.getD pid "")
  | none => .error (.typeError "url of undefined")

/-- PlaywrightBrowser.openTab: creates a page, pushes it on this.tabs, sets
currentTab to the new last index, reassigns this.page to the new page, and
navigates this.page when a url is supplied. -/
def pwOpenTab (url : Option String) (s : BrowserState) : Except JsError BrowserState :=
  let p := newPage s
  let s2 := { p.1 with tabs := p.1.tabs ++ [p.2] }
  let s3 := { s2 with currentTab := (s2.tabs.length : Int) - 1, activePage := some p.2 }
  match url with
  | some u => pwNavigateTo u s3
  | none => .ok s3

/-- PlaywrightBrowser.closeTab: closes this.page; then tests whether
this.tabs.length equals 0 (before the splice) and only then closes context
and browser; then splices this.tabs at currentTab, sets currentTab to the new
last index, and reads this.tabs[currentTab] into this.page. -/
def pwCloseTab (s : BrowserState) : Except JsError BrowserState :=
  match s.activePage with
  | none => .error (.typeError "close of undefined")
  | some pid =>
      let s1 := { s with closedPages := pid :: s.closedPages }
      let s2 :=
        if s1.tabs.length = 0 then
          { s1 with contextClosed := true, browserClosed := true }
        else s1
      let s3 := { s2 with tabs := spliceRemove s2.tabs s2.currentTab }
      let s4 := { s3 with currentTab := (s3.tabs.length : Int) - 1 }
      .ok { s4 with activePage := listGetInt s4.tabs s4.currentTab }

/-- PlaywrightBrowser.switchToTab: throws when the index is below 0 or above
tabs.length - 1, otherwise sets currentTab and this.page. -/
def pwSwitchToTab (i : Int) (s : BrowserState) : Except JsError BrowserState :=
  if i < 0 ∨ i > (s.tabs.length : Int) - 1 then .error (.tabNotFound i)
  else .ok { s with currentTab := i, activePage := listGetInt s.tabs i }

/-! ### PuppeteerBrowser tab operations (inner callback semantics) -/

/-- PuppeteerBrowser.navigateTo: this.page.goto(url), same body as the
playwright one. -/
def ppNavigateTo (u : String) (s : BrowserState) : Except JsError BrowserState :=
  match s.activePage with
  | some pid => .ok (setUrl s pid u)
  | none => .error (.typeError "goto of undefined")

/-- PuppeteerBrowser.getUrl: this.page.url(). -/
def ppGetUrl (s : BrowserState) : Except JsError String :=
  match s.activePage with
  | some pid => .ok (s.pages.getD pid "")
  | none => .error (.typeError "url of undefined")

/-- PuppeteerBrowser.openTab: creates a page, pushes it on this.tabs and sets
currentTab to the new last index; this.page is not reassigned, and a supplied
url is passed to this.navigateTo, which drives this.page. -/
def ppOpenTab (url : Option String) (s : BrowserState) : Except JsError BrowserState :=
  let p := newPage s
  let s2 := { p.1 with tabs := p.1.tabs ++ [p.2] }
  let s3 := { s2 with currentTab := (s2.tabs.length : Int) - 1 }
  match url with
  | some u => ppNavigateTo u s3
  | none => .ok s3

/-- PuppeteerBrowser.closeTab: closes this.tabs[currentTab], splices it out
and sets currentTab to the new last index; this.page, the context and the
browser are left untouched. -/
def ppCloseTab (s : BrowserState) : Except JsError BrowserState :=
  match listGetInt s.tabs s.currentTab with
  | none => .error (.typeError "close of undefined")
  | some pid =>
      let s1 := { s with closedPages := pid :: s.closedPages }
      let s2 := { s1 with tabs := spliceRemove s1.tabs s1.currentTab }
      .ok { s2 with currentTab := (s2.tabs.length : Int) - 1 }

/-- PuppeteerBrowser.switchTab: assigns currentTab with no bounds check and
without touching this.page. -/
def ppSwitchTab (i : Int) (s : BrowserState) : Except JsError BrowserState :=
  .ok { s with currentTab := i }

/-- PuppeteerBrowser.switchToTab: throws when the index is below 0 or above
tabs.length - 1, otherwise sets currentTab and this.page. -/
def ppSwitchToTab (i : Int) (s : BrowserState) : Except JsError BrowserState :=
  if i < 0 ∨ i > (s.tabs.length : Int) - 1 then .error (.tabNotFound i)
  else .ok { s with currentTab := i, activePage := listGetInt s.tabs i }

/-! ## DOM nodes and element collections

The engine node query is modelled as tag matching over the page nodes in
document order; the repository treats the query itself as an opaque engine
primitive, and the collection claims only depend on the order and count of
the matches it reports. -/

/-- One DOM node as seen through the engine primitives the code uses. -/
structure DomNode where
  id : Nat
  tag : String
  text : String
  disabled : Bool
deriving Repr, DecidableEq

/-- Engine query-by-selector (page query of all matches): the matching nodes
in document order. -/
def queryAll (nodes : List DomNode) (sel : String) : List DomNode :=
  nodes.filter (fun n => n.tag == sel)

/-! ### PlaywrightSelector: a lazily re-resolved locator recipe -/

/-- A playwright locator recipe: either a page query or the nth match of a
parent recipe. -/
inductive PwLocator where
  | query (sel : String)
  | nthOf (parent : PwLocator) (idx : Int)
deriving Repr, DecidableEq

/-- Resolving a locator recipe against the current page content.  A locator
for an out-of-range nth index resolves to no nodes. -/
def resolveLocator (nodes : List DomNode) : PwLocator → List DomNode
  | .query sel => queryAll nodes sel
  | .nthOf p i =>
      match listGetInt (resolveLocator nodes p) i with
      | some n => [n]
      | none => []

/-- PlaywrightSelector.count: locator.count() at invocation time. -/
def pwCount (nodes : List DomNode) (loc : PwLocator) : Nat :=
  (resolveLocator nodes loc).length

/-- PlaywrightSelector.nth: a child selector over locator.nth(index); no
bounds check happens here. -/
def pwNth (loc : PwLocator) (i : Int) : PwLocator :=
  PwLocator.nthOf loc i

/-- PlaywrightSelector.getText: locator.innerText(), an operation that
resolves the recipe at invocation time and fails when no node resolves. -/
def pwGetText (nodes : List DomNode) (loc : PwLocator) : Except JsError String :=
  match resolveLocator nodes loc with
  | n :: _ => .ok n.text
  | [] => .error (.elementNotFound "locator")

/-- PlaywrightSelector.forEach: reads count() from a fresh resolution at
invocation time, then awaits the callback once per index i from 0 to
count - 1, in that order, on a child selector over locator.nth(i).  Modelled
as the ordered trace of callback invocations. -/
def pwForEachTrace (nodes : List DomNode) (loc : PwLocator) : List (PwLocator × Nat) :=
  (List.range (pwCount nodes loc)).map (fun i => (pwNth loc (Int.ofNat i), i))

/-- PlaywrightSelector.filter: same iteration as forEach; pushes the child
selector whenever the callback resolves true. -/
def pwFilter (nodes : List DomNode) (loc : PwLocator) (cb : PwLocator → Nat → Bool) :
    List PwLocator :=
  (List.range (pwCount nodes loc)).filterMap (fun i =>
    if cb (pwNth loc (Int.ofNat i)) i then some (pwNth loc (Int.ofNat i)) else none)

/-- PlaywrightSelector.map: same iteration as forEach; pushes the callback
results in order. -/
def pwMapResults (nodes : List DomNode) (loc : PwLocator) (cb : PwLocator → Nat → α) :
    List α :=
  (List.range (pwCount nodes loc)).map (fun i => cb (pwNth loc (Int.ofNat i)) i)

/-! ### PuppeteerSelector: captured handles -/

/-- Model of a constructed PuppeteerSelector: the captured element handle
(undefined modelled as none) and the selector string.  The locator argument
the source passes to the constructor is an unawaited page query promise and
is not usable as a locator; the claims here only concern the handle. -/
structure PpSelector where
  elementHandle : Option DomNode
  selectorString : String
deriving Repr, DecidableEq

/-- Reading a numeric index property on a Promise object, as in indexing the
unawaited result of a page query of all matches: a Promise has no element
properties, so the access evaluates to undefined for every index. -/
def jsIndexPromise (_i : Int) : Option DomNode := none

/-- PuppeteerSelector.count: the length of a fresh page query of all matches
at invocation time. -/
def ppCount (nodes : List DomNode) (sel : String) : Nat :=
  (queryAll nodes sel).length

/-- PuppeteerSelector.getText and the other handle operations: awaiting
this.elementHandle and reading a property is a TypeError when the captured
handle is undefined. -/
def ppGetText (e : PpSelector) : Except JsError String :=
  match e.elementHandle with
  | some n => .ok n.text
  | none => .error (.typeError "getProperty of undefined")

/-- PuppeteerSelector.forEach: awaits a fresh page query of all matches at
invocation time, then awaits the callback once per match, in index order, on
a child PuppeteerSelector wrapping the freshly captured i-th handle.
Modelled as the ordered trace of callback invocations. -/
def ppForEachTrace (nodes : List DomNode) (sel : String) : List (PpSelector × Nat) :=
  (queryAll nodes sel).enum.map
    (fun p => ({ elementHandle := some p.2, selectorString := sel }, p.1))

/-- An entry of the array returned by PuppeteerSelector.filter: either a
child selector or a raw engine ElementHandle cast to the element interface. -/
inductive PpFilterItem where
  | childEl (child : PpSelector)
  | rawHandle (h : DomNode)
deriving Repr, DecidableEq

/-- PuppeteerSelector.filter: iterates like forEach, calling the callback on
a constructed child selector, but pushes the raw ElementHandle of the match
(cast to the element interface) whenever the callback resolves true. -/
def ppFilter (nodes : List DomNode) (sel : String) (cb : PpSelector → Nat → Bool) :
    List PpFilterItem :=
  (queryAll nodes sel).enum.filterMap (fun p =>
    if cb { elementHandle := some p.2, selectorString := sel } p.1 then
      some (PpFilterItem.rawHandle p.2)
    else none)

/-- PuppeteerSelector.map: iterates like forEach and pushes the callback
results in order. -/
def ppMapResults (nodes : List DomNode) (sel : String) (cb : PpSelector → Nat → α) :
    List α :=
  (queryAll nodes sel).enum.map
    (fun p => cb { elementHandle := some p.2, selectorString := sel } p.1)

/-- PuppeteerSelector.nth: constructs a child selector whose element handle
is the index-th entry of the unawaited page query promise, which is undefined
for every index. -/
def ppNth (sel : String) (i : Int) : PpSelector :=
  { elementHandle := jsIndexPromise i, selectorString := sel }

/-- PuppeteerSelector.isEnabled callback: evaluates the disabled property of
the first node matching the fixed selector string button on the current page;
the page $eval throws when no node matches.  The selector of the element the
method is called on plays no part in the body. -/
def ppIsEnabled (nodes : List DomNode) (_e : PpSelector) : Except JsError Bool :=
  match queryAll nodes "button" with
  | [] => .error (.elementNotFound "button")
  | b :: _ => .ok b.disabled

/-! ## Bounded dialog wait -/

/-- The outcome a dialog wait settles with. -/
inductive WaitOutcome where
  | eventFired
  | timedOut
deriving Repr, DecidableEq

/-- The seconds bound of PuppeteerBrowser.waitForEvent: the argument is
defaulted by JavaScript truthiness (seconds or-else 30), so both undefined
and 0 become 30. -/
def waitSeconds (seconds : Option Nat) : Nat :=
  match seconds with
  | some s => if s = 0 then 30 else s
  | none => 30

/-- PuppeteerBrowser.waitForEvent: a promise race between a listener for the
named event and a page wait of seconds * 1000 ms.  The moment at which the
page event fires, if ever, is an environment parameter.  The race settles
with the event outcome if the event fires within the bound and with the
timed-out outcome at the bound otherwise; it resolves in every case, never
rejecting.  The result pairs the outcome with the settling time in ms. -/
def waitForEvent (eventAt : Option Nat) (seconds : Option Nat) :
    Except JsError (WaitOutcome × Nat) :=
  let bound := waitSeconds seconds * 1000
  match eventAt with
  | some t => if t ≤ bound then .ok (.eventFired, t) else .ok (.timedOut, bound)
  | none => .ok (.timedOut, bound)

/-- Modelled from the spec: the engine dialog wait used by
PlaywrightBrowser.alert (page.waitForEvent with the dialog event); the engine
is an external collaborator absent from src.  Spec section 4.2: alert
operations block on the next native dialog event or a bounded wait timeout
with a default of 30 seconds, and a wait during which no dialog fires
resolves to a timed-out outcome rather than an error. -/
def pwDialogWait (eventAt : Option Nat) : Except JsError (WaitOutcome × Nat) :=
  let bound := 30 * 1000
  match eventAt with
  | some t => if t ≤ bound then .ok (.eventFired, t) else .ok (.timedOut, bound)
  | none => .ok (.timedOut, bound)

/-- The four alert operations. -/
inductive AlertOp where
  | accept
  | dismiss
  | getTextOp
  | sendKeys
deriving Repr, DecidableEq

/-- The wait step of each PuppeteerBrowser.alert operation: every one of the
four operations first awaits waitForEvent on the dialog event with the
seconds argument left undefined. -/
def ppAlertWait (_op : AlertOp) (eventAt : Option Nat) :
    Except JsError (WaitOutcome × Nat) :=
  waitForEvent eventAt none

/-- The wait step of each PlaywrightBrowser.alert operation: every one of the
four operations first awaits the engine dialog wait. -/
def pwAlertWait (_op : AlertOp) (eventAt : Option Nat) :
    Except JsError (WaitOutcome × Nat) :=
  pwDialogWait eventAt

/-! ## Helper lemmas -/

deriving instance DecidableEq for Except

/-! ## Claim theorems -/

/-- C2: safeRun returns a successful operation result unchanged; on failure
it propagates the error exactly when the merged throwOnFail field is true,
and otherwise logs the failure and returns an undefined result without
raising. -/
theorem safeRun_policy (o : SafeRunOptions) (v : α) (e : JsError) :
    (safeRun o (Except.ok v)).1 = Except.ok (some v)
    ∧ (o.throwOnFail = some true →
        (safeRun o (Except.error e : Except JsError α)).1 = Except.error e)
    ∧ (o.throwOnFail ≠ some true →
        (safeRun o (Except.error e : Except JsError α)).1 = Except.ok none
        ∧ errorLine e ∈ (safeRun o (Except.error e : Except JsError α)).2)
    ∧ ((∃ err, (safeRun o (Except.error e : Except JsError α)).1 = Except.error err) ↔
        o.throwOnFail = some true) := by
  obtain ⟨⟨t, l, tf⟩, m⟩ := o
  refine ⟨rfl, ?_, ?_, ?_⟩
  · intro h
    rcases tf with _ | b
    · exact absurd h (by simp)
    · cases b
      · exact absurd h (by simp)
      · simp [safeRun, truthy]
  · intro h
    rcases tf with _ | b
    · simp [safeRun, truthy]
    · cases b
      · simp [safeRun, truthy]
      · exact absurd rfl h
  · rcases tf with _ | b
    · simp [safeRun, truthy]
    · cases b
      · simp [safeRun, truthy]
      · simp [safeRun, truthy]

/-- Concrete check of safeRun_policy: with throwOnFail true, a failing
selector operation propagates its error. -/
theorem safeRun_policy_witness :
    ({ timeout := none, log := some false, throwOnFail := some true
       message := "w" } : SafeRunOptions).throwOnFail = some true
    ∧ (safeRun
        { timeout := none, log := some false, throwOnFail := some true, message := "w" }
        (Except.error (JsError.elementNotFound "#missing") : Except JsError Nat)).1
      = Except.error (JsError.elementNotFound "#missing") :=
  ⟨rfl,
    (safeRun_policy
      { timeout := none, log := some false, throwOnFail := some true, message := "w" }
      (0 : Nat) (JsError.elementNotFound "#missing")).2.1 rfl⟩

/-- C5: switchToTab of both backends throws the tab-not-found error when the
index is below 0 or above tabs.length - 1; otherwise it succeeds, setting
currentTab to the index and the active page to tabs[i], which exists. -/
theorem switchToTab_spec (i : Int) (s : BrowserState) :
    ((i < 0 ∨ i > (s.tabs.length : Int) - 1) →
        pwSwitchToTab i s = Except.error (JsError.tabNotFound i)
        ∧ ppSwitchToTab i s = Except.error (JsError.tabNotFound i))
    ∧ (0 ≤ i → i ≤ (s.tabs.length : Int) - 1 →
        pwSwitchToTab i s =
          Except.ok { s with currentTab := i, activePage := listGetInt s.tabs i }
        ∧ ppSwitchToTab i s =
          Except.ok { s with currentTab := i, activePage := listGetInt s.tabs i }
        ∧ ∃ pid, listGetInt s.tabs i = some pid) := by
  constructor
  · intro h
    constructor
    · unfold pwSwitchToTab
      rw [if_pos h]
    · unfold ppSwitchToTab
      rw [if_pos h]
  · intro h0 h1
    have hc : ¬ (i < 0 ∨ i > (s.tabs.length : Int) - 1) := by omega
    refine ⟨?_, ?_, ?_⟩
    · unfold pwSwitchToTab
      rw [if_neg hc]
    · unfold ppSwitchToTab
      rw [if_neg hc]
    · have hlt : i.toNat < s.tabs.length := by omega
      rcases hg : s.tabs.get? i.toNat with _ | pid
      · rw [List.get?_eq_none] at hg
        omega
      · exact ⟨pid, by unfold listGetInt; rw [if_pos h0]; exact hg⟩

/-- Concrete check of switchToTab_spec: index 0 is accepted on the initial
session and index 5 is rejected. -/
theorem switchToTab_spec_witness :
    pwSwitchToTab 0 initialState =
      Except.ok { initialState with currentTab := 0, activePage := listGetInt initialState.tabs 0 }
    ∧ ppSwitchToTab 5 initialState = Except.error (JsError.tabNotFound 5) :=
  ⟨((switchToTab_spec 0 initialState).2 (by decide) (by decide)).1,
    ((switchToTab_spec 5 initialState).1 (Or.inr (by decide))).2⟩

/-- The full per-call resolution pipeline as it appears at every call site:
library defaults, then the configuration file resolved at init, then the
call-site record. -/
def resolveCallOptions (m : String) (fc : BaseConfig) (cs : Option ActionOptions) :
    SafeRunOptions :=
  callSiteOptions m (getActionOptionsFromConfig (configOverrides fc)) cs

/-- C6: per-call configuration is a pure, order-deterministic merge of
library defaults, then the session configuration, then call-site options;
every field supplied at the call site wins over the session value, every
field not supplied falls back to the session value, equal inputs resolve
equally, and with nothing supplied anywhere the library defaults survive. -/
theorem config_merge_spec (m : String) (fc : BaseConfig) (cs : ActionOptions) :
    (∀ v, cs.timeout = some v → (resolveCallOptions m fc (some cs)).timeout = some v)
    ∧ (∀ b, cs.log = some b → (resolveCallOptions m fc (some cs)).log = some b)
    ∧ (∀ b, cs.throwOnFail = some b →
        (resolveCallOptions m fc (some cs)).throwOnFail = some b)
    ∧ (cs.timeout = none → (resolveCallOptions m fc (some cs)).timeout
        = (getActionOptionsFromConfig (configOverrides fc)).timeout)
    ∧ (cs.log = none → (resolveCallOptions m fc (some cs)).log
        = (getActionOptionsFromConfig (configOverrides fc)).log)
    ∧ (cs.throwOnFail = none → (resolveCallOptions m fc (some cs)).throwOnFail
        = (getActionOptionsFromConfig (configOverrides fc)).throwOnFail)
    ∧ (∀ fc2 cs2, fc = fc2 → cs = cs2 →
        resolveCallOptions m fc (some cs) = resolveCallOptions m fc2 (some cs2))
    ∧ (cs.timeout = none → cs.log = none → cs.throwOnFail = none →
        fc.actionTimeout = none → fc.logs = none → fc.throwOnFail = none →
        (resolveCallOptions m fc (some cs)).toActionOptions
          = { timeout := some 5000, log := some true, throwOnFail := some true }) := by
  obtain ⟨t, l, tf⟩ := cs
  obtain ⟨f1, f2, f3, f4, f5⟩ := fc
  refine ⟨?_, ?_, ?_, ?_, ?_, ?_, ?_, ?_⟩
  · intro v h
    subst h
    rfl
  · intro b h
    subst h
    rfl
  · intro b h
    subst h
    rfl
  · intro h
    subst h
    rfl
  · intro h
    subst h
    rfl
  · intro h
    subst h
    rfl
  · intro fc2 cs2 h1 h2
    subst h1
    subst h2
    rfl
  · intro h1 h2 h3 h4 h5 h6
    subst h1; subst h2; subst h3; subst h4; subst h5; subst h6
    rfl

/-- Concrete check of config_merge_spec: a call-site throwOnFail false beats
the session default true. -/
theorem config_merge_spec_witness :
    ({ timeout := none, log := none, throwOnFail := some false } : ActionOptions).throwOnFail
      = some false
    ∧ (resolveCallOptions "w"
        { browser := none, headless := none, actionTimeout := none
          logs := none, throwOnFail := some true }
        (some { timeout := none, log := none, throwOnFail := some false })).throwOnFail
      = some false :=
  ⟨rfl,
    (config_merge_spec "w"
      { browser := none, headless := none, actionTimeout := none
        logs := none, throwOnFail := some true }
      { timeout := none, log := none, throwOnFail := some false }).2.2.1 false rfl⟩

/-- C10: PuppeteerSelector.isEnabled ignores the selector of the element it
is called on, resolves to the disabled property of the first node matching
the fixed selector button (the negation of the documented enabled meaning),
and fails when the page holds no button node. -/
theorem ppIsEnabled_spec (nodes : List DomNode) (e1 e2 : PpSelector) :
    ppIsEnabled nodes e1 = ppIsEnabled nodes e2
    ∧ (∀ b rest, queryAll nodes "button" = b :: rest →
        ppIsEnabled nodes e1 = Except.ok b.disabled)
    ∧ (queryAll nodes "button" = [] →
        ppIsEnabled nodes e1 = Except.error (JsError.elementNotFound "button"))
    ∧ (ppIsEnabled nodes e1 = Except.ok true ↔
        ∃ b rest, queryAll nodes "button" = b :: rest ∧ b.disabled = true) := by
  refine ⟨rfl, ?_, ?_, ?_⟩
  · intro b rest h
    simp [ppIsEnabled, h]
  · intro h
    simp [ppIsEnabled, h]
  · cases h : queryAll nodes "button" with
    | nil => simp [ppIsEnabled, h]
    | cons b rest =>
        simp only [ppIsEnabled, h, Except.ok.injEq]
        constructor
        · intro hb
          exact ⟨b, rest, rfl, hb⟩
        · rintro ⟨b2, r2, heq, hd⟩
          cases heq
          exact hd

/-- Concrete check of ppIsEnabled_spec: two elements with unrelated selectors
both resolve to the disabled flag of the only button on the page. -/
theorem ppIsEnabled_spec_witness :
    ppIsEnabled [DomNode.mk 0 "p" "hi" false, DomNode.mk 1 "button" "ok" true]
      { elementHandle := none, selectorString := "#a" } = Except.ok true :=
  (ppIsEnabled_spec [DomNode.mk 0 "p" "hi" false, DomNode.mk 1 "button" "ok" true]
      { elementHandle := none, selectorString := "#a" }
      { elementHandle := none, selectorString := "#b" }).2.1
    (DomNode.mk 1 "button" "ok" true) [] (by decide)

/-- C9: every alert operation of both backends blocks on the next dialog
through a bounded wait whose default bound is 30 seconds; the wait settles
within the bound in every case, and when no dialog fires it resolves to the
timed-out outcome rather than an error. -/
theorem alert_wait_spec (op : AlertOp) (eventAt : Option Nat) (seconds : Option Nat) :
    waitSeconds none = 30
    ∧ (∃ r, waitForEvent eventAt seconds = Except.ok r
        ∧ r.2 ≤ waitSeconds seconds * 1000)
    ∧ (eventAt = none →
        ppAlertWait op eventAt = Except.ok (WaitOutcome.timedOut, 30 * 1000)
        ∧ pwAlertWait op eventAt = Except.ok (WaitOutcome.timedOut, 30 * 1000))
    ∧ (∃ r, ppAlertWait op eventAt = Except.ok r ∧ r.2 ≤ 30 * 1000)
    ∧ (∃ r, pwAlertWait op eventAt = Except.ok r ∧ r.2 ≤ 30 * 1000) := by
  refine ⟨rfl, ?_, ?_, ?_, ?_⟩
  · cases eventAt with
    | none => exact ⟨(WaitOutcome.timedOut, waitSeconds seconds * 1000), rfl, le_refl _⟩
    | some t =>
        by_cases h : t ≤ waitSeconds seconds * 1000
        · exact ⟨(WaitOutcome.eventFired, t), by simp [waitForEvent, h], h⟩
        · exact ⟨(WaitOutcome.timedOut, waitSeconds seconds * 1000),
            by simp [waitForEvent, h], le_refl _⟩
  · intro h
    subst h
    exact ⟨rfl, rfl⟩
  · cases eventAt with
    | none => exact ⟨(WaitOutcome.timedOut, 30 * 1000), rfl, le_refl _⟩
    | some t =>
        by_cases h : t ≤ 30 * 1000
        · exact ⟨(WaitOutcome.eventFired, t), by simp [ppAlertWait, waitForEvent, waitSeconds, h], h⟩
        · exact ⟨(WaitOutcome.timedOut, 30 * 1000),
            by simp [ppAlertWait, waitForEvent, waitSeconds, h], le_refl _⟩
  · cases eventAt with
    | none => exact ⟨(WaitOutcome.timedOut, 30 * 1000), rfl, le_refl _⟩
    | some t =>
        by_cases h : t ≤ 30 * 1000
        · exact ⟨(WaitOutcome.eventFired, t), by simp [pwAlertWait, pwDialogWait, h], h⟩
        · exact ⟨(WaitOutcome.timedOut, 30 * 1000),
            by simp [pwAlertWait, pwDialogWait, h], le_refl _⟩

/-- Concrete check of alert_wait_spec: with no dialog ever firing, the accept
operation of both backends settles at 30 seconds with the timed-out
outcome. -/
theorem alert_wait_spec_witness :
    ppAlertWait AlertOp.accept none = Except.ok (WaitOutcome.timedOut, 30 * 1000)
    ∧ pwAlertWait AlertOp.accept none = Except.ok (WaitOutcome.timedOut, 30 * 1000) :=
  (alert_wait_spec AlertOp.accept none none).2.2.1 rfl

/-! ## Concrete fixtures for the failing evaluations -/

/-- First div node of the two-div page. -/
def nodeA : DomNode := { id := 0, tag := "div", text := "a", disabled := false }

/-- Second div node of the two-div page. -/
def nodeB : DomNode := { id := 1, tag := "div", text := "b", disabled := false }

/-- A page holding two div nodes. -/
def twoDivPage : List DomNode := [nodeA, nodeB]

/-- The div page query recipe. -/
def divQuery : PwLocator := PwLocator.query "div"

/-- A page holding a single button node. -/
def oneButtonPage : List DomNode := [{ id := 0, tag := "button", text := "ok", disabled := false }]

/-- The state reached by openTab with no url from the initial session on the
playwright backend. -/
def twoTabState : BrowserState :=
  { pages := [aboutBlank, aboutBlank], closedPages := [], tabs := [0, 1]
    currentTab := 1, activePage := some 1, contextClosed := false, browserClosed := false }

/-- First URL of the tab scenario. -/
def url1 : String := "https://example.test"

/-- Second URL of the tab scenario. -/
def url2 : String := "https://example.test/2"

/-- The scenario navigateTo url1, openTab url2, getUrl, switchToTab 0, getUrl
on the playwright backend: the pair of URLs the two getUrl calls observe. -/
def pwScenario : Except JsError (String × String) := do
  let s1 ← pwNavigateTo url1 initialState
  let s2 ← pwOpenTab (some url2) s1
  let u1 ← pwGetUrl s2
  let s3 ← pwSwitchToTab 0 s2
  let u2 ← pwGetUrl s3
  pure (u1, u2)

/-- The same scenario on the puppeteer backend. -/
def ppScenario : Except JsError (String × String) := do
  let s1 ← ppNavigateTo url1 initialState
  let s2 ← ppOpenTab (some url2) s1
  let u1 ← ppGetUrl s2
  let s3 ← ppSwitchToTab 0 s2
  let u2 ← ppGetUrl s3
  pure (u1, u2)

/-- The puppeteer state right after navigateTo url1 and openTab url2. -/
def ppAfterOpen : Except JsError BrowserState := do
  let s1 ← ppNavigateTo url1 initialState
  ppOpenTab (some url2) s1

/-! ## Failing evaluations -/

/-- C1 (failing evaluation): closing the only tab of a playwright session
leaves the tab sequence empty with currentTab equal to -1 and reads the
empty sequence at index -1 (undefined) into the active page, without closing
context or browser; and the puppeteer switchTab accepts an out-of-range
index with no bounds check, breaking the invariant on a non-empty tab
sequence. -/
theorem closeTab_breaks_invariant :
    pwCloseTab initialState =
      Except.ok { pages := [aboutBlank], closedPages := [0], tabs := []
                  currentTab := -1, activePage := none
                  contextClosed := false, browserClosed := false }
    ∧ ppSwitchTab 5 initialState = Except.ok { initialState with currentTab := 5 }
    ∧ tabInvariantHolds { initialState with currentTab := 5 } = false
    ∧ initialState.tabs.length = 1 := by
  decide

/-- C3 (failing evaluation): closeTab removes the current tab and re-selects
the last index while tabs stay non-empty, but closing the last tab releases
nothing in either backend: the playwright emptiness test runs before the
splice and never fires, and the puppeteer body has no release at all and
leaves this.page on the closed tab. -/
theorem closeTab_releases_nothing :
    pwOpenTab none initialState = Except.ok twoTabState
    ∧ pwCloseTab twoTabState =
        Except.ok { pages := [aboutBlank, aboutBlank], closedPages := [1], tabs := [0]
                    currentTab := 0, activePage := some 0
                    contextClosed := false, browserClosed := false }
    ∧ ppCloseTab initialState =
        Except.ok { pages := [aboutBlank], closedPages := [0], tabs := []
                    currentTab := -1, activePage := some 0
                    contextClosed := false, browserClosed := false }
    ∧ (pwCloseTab initialState).map (fun s => (s.tabs, s.contextClosed, s.browserClosed))
        = Except.ok ([], false, false) := by
  decide

/-- C4 (failing evaluation): on the playwright backend the scenario observes
url2 then, after switching back to tab 0, url1; on the puppeteer backend
openTab never reassigns this.page, so the supplied url navigates the old tab:
after openTab the session has currentTab 1 but active page 0 and the new tab
still holds about:blank, and both getUrl calls observe url2. -/
theorem puppeteer_openTab_navigates_old_tab :
    pwScenario = Except.ok (url2, url1)
    ∧ ppScenario = Except.ok (url2, url2)
    ∧ ppScenario ≠ Except.ok (url2, url1)
    ∧ ppAfterOpen.map (fun s => (s.currentTab, s.activePage, s.pages))
        = Except.ok (1, some 0, [url2, aboutBlank]) := by
  decide

/-- C7 (failing evaluation): forEach of both backends visits one freshly
derived child per match, in index order matching the count at invocation;
the playwright filter returns the child selectors the callback approved, but
the puppeteer filter returns raw engine handles and never a child element. -/
theorem puppeteer_filter_returns_raw_handles :
    ppForEachTrace twoDivPage "div"
      = [({ elementHandle := some nodeA, selectorString := "div" }, 0),
         ({ elementHandle := some nodeB, selectorString := "div" }, 1)]
    ∧ (ppForEachTrace twoDivPage "div").length = ppCount twoDivPage "div"
    ∧ pwFilter twoDivPage divQuery (fun _ i => decide (i = 0)) = [pwNth divQuery 0]
    ∧ resolveLocator twoDivPage (pwNth divQuery 0) = [nodeA]
    ∧ ppFilter twoDivPage "div" (fun _ i => decide (i = 0))
        = [PpFilterItem.rawHandle nodeA]
    ∧ (ppFilter twoDivPage "div" (fun _ _ => true)).all
        (fun x => match x with
          | PpFilterItem.rawHandle _ => true
          | PpFilterItem.childEl _ => false) = true := by
  decide

/-- C8 (failing evaluation): the puppeteer nth captures undefined for every
index because it indexes the unawaited page query promise, so an operation
on the returned element raises a TypeError even for an in-range index with a
live match; the playwright nth is a lazy recipe whose in-range operations
act on the i-th match and whose out-of-range resolution is empty. -/
theorem puppeteer_nth_captures_undefined :
    (ppNth "button" 0).elementHandle = none
    ∧ (ppNth "button" 5).elementHandle = none
    ∧ ppGetText (ppNth "button" 0)
        = Except.error (JsError.typeError "getProperty of undefined")
    ∧ ppCount oneButtonPage "button" = 1
    ∧ pwGetText oneButtonPage (pwNth (PwLocator.query "button") 0) = Except.ok "ok"
    ∧ resolveLocator oneButtonPage (pwNth (PwLocator.query "button") 5) = [] := by
  decide

end Scraper
